import Mathlib

/-!
Shallow embedding of the football-dashboard repository's core logic:
the filter engine and preset store of `src/unnamed/part_000` (also present,
minus predicate-expression search, in `src/for markos only/app.js`), and the
prediction checks and aggregations of `src/unnamed/part_001`.

JS values are modelled as follows: strings are `String`, numbers flowing
through `parseFloat`/arithmetic are `ℚ`, date values are `ℤ` day numbers
(order-isomorphic to the millisecond timestamps the code compares), `null` /
absent values are `Option`, JS objects used as string-keyed dictionaries are
ordered association lists (insertion order, matching `Object.entries` /
`Object.assign` / `Object.keys` order for the non-numeric keys this code
uses), and `undefined`-or-boolean results are `Option Bool`.
-/

/-- Whether the first list is an initial segment of the second. -/
def leadsWith : List Char → List Char → Bool
  | [], _ => true
  | _ :: _, [] => false
  | c :: cs, d :: ds => c == d && leadsWith cs ds

/-- Whether the first list occurs contiguously inside the second. -/
def occursIn (sub : List Char) : List Char → Bool
  | [] => leadsWith sub []
  | d :: rest => leadsWith sub (d :: rest) || occursIn sub rest

/-- JS `String.prototype.includes`: substring containment; the empty needle
is always contained. -/
def strIncludes (s sub : String) : Bool :=
  occursIn sub.data s.data

/-- Core of the JS `String.prototype.split` model. The fuel only bounds the
recursion and is passed the text's length, which suffices because every step
consumes at least one character. On a separator hit the fragment so far is
emitted and the separator's characters are skipped. -/
def splitCharsGo (sep : List Char) : ℕ → List Char → List Char → List (List Char)
  | _, [], acc => [acc.reverse]
  | 0, l, acc => [acc.reverse ++ l]
  | fuel + 1, d :: rest, acc =>
    if leadsWith sep (d :: rest) then
      acc.reverse :: splitCharsGo sep fuel (List.drop (sep.length - 1) rest) []
    else splitCharsGo sep fuel rest (d :: acc)

/-- JS `String.prototype.split` with a string separator: fragments between
non-overlapping occurrences, scanned left to right; the empty separator
splits into single characters. -/
def jsSplit (s sep : String) : List String :=
  if sep.data.isEmpty then s.data.map (fun c => ⟨[c]⟩)
  else (splitCharsGo sep.data s.data.length s.data []).map (fun l => ⟨l⟩)

/-- JS `String.prototype.toLowerCase` on the ASCII team and division names
this application handles. -/
def strLower (s : String) : String :=
  ⟨s.data.map Char.toLower⟩

/-- Decimal value of a digit string, `none` when empty or not all digits. -/
def digitsVal (l : List Char) : Option ℕ :=
  l.foldl
    (fun acc c => match acc with
      | none => none
      | some n => if c.isDigit then some (n * 10 + (c.toNat - 48)) else none)
    (if l.isEmpty then none else some 0)

/-- Numeric reading of the decimal-integer fragments the date code splits
out (with an optional sign); any other content gives JS `NaN`, totalised to
`none` here — no claim concerns malformed identifiers. -/
def strToInt? (s : String) : Option ℤ :=
  match s.data with
  | '-' :: rest => (digitsVal rest).map (fun n => -(n : ℤ))
  | l => (digitsVal l).map (fun n => (n : ℤ))

/-- JS `Math.round`: half-up rounding, `Math.round(x) = ⌊x + 1/2⌋`. -/
def jsRound (q : ℚ) : ℤ := ⌊q + 1/2⌋

/-- One record of the statistics page's dataset (`src/unnamed/part_001`),
restricted to the fields its prediction checks and aggregations read. A score
is `none` for the two absent forms `isMatchCompleted` tests (JS `null` and
`''`); a present score carries the rational value `parseFloat` yields. -/
structure StatMatch where
  country : String
  result_suggestion : String
  goals_suggestion : String
  home_score : Option ℚ
  away_score : Option ℚ
deriving DecidableEq

/-- `isMatchCompleted` (src/unnamed/part_001:326-329): both score fields
present (not `null`, not `''`). -/
def isMatchCompleted (m : StatMatch) : Bool :=
  m.home_score.isSome && m.away_score.isSome

/-- `parseFloat(score)` for a score whose absent forms are folded into
`none`; only read on completed matches, where the score is present. -/
def scoreVal : Option ℚ → ℚ
  | some q => q
  | none => 0

/-- The actual total-goals value `parseFloat(home_score) +
parseFloat(away_score)` computed inside `checkIsGoalsCorrect`. -/
def totalGoals (m : StatMatch) : ℚ :=
  scoreVal m.home_score + scoreVal m.away_score

/-- `checkIsForecastCorrect` (src/unnamed/part_001:288-294); `none` models JS
`undefined`. -/
def checkIsForecastCorrect (m : StatMatch) : Option Bool :=
  if m.result_suggestion = "" ∨ isMatchCompleted m = false then none
  else if strIncludes m.result_suggestion "1" ∧ scoreVal m.home_score > scoreVal m.away_score then some true
  else if strIncludes m.result_suggestion "X" ∧ scoreVal m.home_score = scoreVal m.away_score then some true
  else if strIncludes m.result_suggestion "2" ∧ scoreVal m.home_score < scoreVal m.away_score then some true
  else some false

/-- `checkIsGoalsCorrect` (src/unnamed/part_001:296-305). -/
def checkIsGoalsCorrect (m : StatMatch) : Option Bool :=
  if m.goals_suggestion = "" ∨ isMatchCompleted m = false then none
  else if strIncludes m.goals_suggestion "Over 2.5" ∧ totalGoals m > 2.5 then some true
  else if strIncludes m.goals_suggestion "Over 1.5" ∧ totalGoals m > 1.5 then some true
  else if strIncludes m.goals_suggestion "Under 3.5" ∧ totalGoals m < 3.5 then some true
  else if strIncludes m.goals_suggestion "BTTS Yes" ∧ scoreVal m.home_score > 0 ∧ scoreVal m.away_score > 0 then some true
  else if strIncludes m.goals_suggestion "BTTS No" ∧ (scoreVal m.home_score = 0 ∨ scoreVal m.away_score = 0) then some true
  else some false

/-- `checkIsBothCorrect` (src/unnamed/part_001:307-311). -/
def checkIsBothCorrect (m : StatMatch) : Option Bool :=
  match checkIsForecastCorrect m, checkIsGoalsCorrect m with
  | some f, some g => some (f && g)
  | _, _ => none

/-- `calcAccuracy` (src/unnamed/part_001:173-177): drop `undefined`
evaluations, count the `true` ones, and report the rounded percentage, `0`
when nothing is defined. -/
def calcAccuracy (matchList : List StatMatch) (checkFn : StatMatch → Option Bool) : ℤ :=
  let valid := (matchList.map checkFn).filter (fun v => v != none)
  let correct := (valid.filter (fun v => v == some true)).length
  if valid.length ≠ 0 then jsRound ((correct : ℚ) / (valid.length : ℚ) * 100) else 0

/-- Number of defined (non-`undefined`) evaluations of `checkFn` over
`matches` — the `valid.length` of `calcAccuracy`. -/
def definedCount (matchList : List StatMatch) (checkFn : StatMatch → Option Bool) : ℕ :=
  ((matchList.map checkFn).filter (fun v => v != none)).length

/-- Number of evaluations of `checkFn` over `matches` that are defined and
`true` — the `correct` of `calcAccuracy`. -/
def correctCount (matchList : List StatMatch) (checkFn : StatMatch → Option Bool) : ℕ :=
  (((matchList.map checkFn).filter (fun v => v != none)).filter (fun v => v == some true)).length

/-- `ChartsManager.calculateAccuracy` (src/for markos only/charts.js:48-50). -/
def ChartsManager.calculateAccuracy (correct total : ℚ) : ℤ :=
  if total > 0 then jsRound (correct / total * 100) else 0

/-- One step of the `matches.forEach` loop of `getBestLeague`
(src/unnamed/part_001:179-193): create the country's `{correct: 0, total: 0}`
entry on first sight, then count the match when `checkIsBothCorrect` is
defined. -/
def updateStats (stats : List (String × ℕ × ℕ)) (m : StatMatch) : List (String × ℕ × ℕ) :=
  let stats := if (stats.find? (fun p => p.1 == m.country)).isSome then stats
    else stats ++ [(m.country, 0, 0)]
  match checkIsBothCorrect m with
  | none => stats
  | some b => stats.map (fun p =>
      if p.1 == m.country then (p.1, (if b then p.2.1 + 1 else p.2.1), p.2.2 + 1) else p)

/-- The `stats` object built by `getBestLeague`, as an association list in
key-insertion order (the `Object.entries` order for these non-numeric
country keys). -/
def buildStats (matchList : List StatMatch) : List (String × ℕ × ℕ) :=
  matchList.foldl updateStats []

/-- The accuracy `total ? correct / total : 0` that `getBestLeague`'s reduce
computes for one stats entry. -/
def accOf (g : String × ℕ × ℕ) : ℚ :=
  if g.2.2 ≠ 0 then (g.2.1 : ℚ) / (g.2.2 : ℚ) else 0

/-- `getBestLeague` (src/unnamed/part_001:179-193): reduce over the stats
entries, starting from the sentinel `{league: '', acc: 0}` and replacing it
only on strict improvement. -/
def getBestLeague (matchList : List StatMatch) : String :=
  ((buildStats matchList).foldl
    (fun best g => if best.2 < accOf g then (g.1, accOf g) else best)
    ("", (0 : ℚ))).1

/-- The stats entries paired with their accuracies, in iteration order. -/
def statsAcc (matchList : List StatMatch) : List (String × ℚ) :=
  (buildStats matchList).map (fun g => (g.1, accOf g))

/-- The reduce of `getBestLeague`, abstracted over the entry list and the
initial accumulator. -/
def bestFold (init : String × ℚ) (l : List (String × ℚ)) : String × ℚ :=
  l.foldl (fun best g => if best.2 < g.2 then g else best) init

/-- Hinnant's days-from-civil-epoch count for a Gregorian date (floor
divisions), giving JS `Date` values a model that is order-isomorphic to their
millisecond timestamps on whole-day dates. -/
def daysFromCivil (y m d : ℤ) : ℤ :=
  let y2 := if m ≤ 2 then y - 1 else y
  let era := Int.fdiv y2 400
  let yoe := y2 - era * 400
  let doy := Int.fdiv (153 * (m + (if 2 < m then -3 else 9)) + 2) 5 + d - 1
  let doe := yoe * 365 + Int.fdiv yoe 4 - Int.fdiv yoe 100 + doy
  era * 146097 + doe - 719468

/-- JS `new Date(year, monthIndex, day)`: month indices overflow into years
and day numbers into months, as in the host constructor. -/
def jsMkDate (year monthIndex day : ℤ) : ℤ :=
  daysFromCivil (year + Int.fdiv monthIndex 12) (Int.fmod monthIndex 12 + 1) day

/-- JS numeric coercion of a possibly-missing split fragment. A fragment that
is not a decimal integer gives JS `NaN` (and an Invalid Date downstream);
that is totalised to `0` here — no claim concerns malformed identifiers. -/
def jsNum (o : Option String) : ℤ := (o.bind strToInt?).getD 0

/-- JS indexing `l[i]` on an array of strings: `undefined` out of range. -/
def jsIndex (l : List String) (i : ℤ) : Option String :=
  if 0 ≤ i then l[i.toNat]? else none

/-- `Utils.parseDate` (src/unnamed/part_000:61-69); `odds` is whether the
page's query string contains `odds` (the branch reading `dd/mm/yyyy` from the
second fragment instead of `yyyy-mm-dd` from the tail fragments). -/
def Utils.parseDate (odds : Bool) (matchId : String) : ℤ :=
  if odds then
    let date := jsSplit ((jsIndex (jsSplit matchId "-") 1).getD "") "/"
    jsMkDate (jsNum (jsIndex date 2)) (jsNum (jsIndex date 1) - 1) (jsNum (jsIndex date 0))
  else
    let dateSplit := jsSplit matchId "-"
    jsMkDate (jsNum (jsIndex dateSplit ((dateSplit.length : ℤ) - 5)))
      (jsNum (jsIndex dateSplit ((dateSplit.length : ℤ) - 4)) - 1)
      (jsNum (jsIndex dateSplit ((dateSplit.length : ℤ) - 3)))

/-- The `yyyy-mm-dd` parsing of a `dateFrom`/`dateTo` form value inside
`FilterManager.applyFilters` (src/unnamed/part_000:400-416). -/
def parseFilterDate (s : String) : ℤ :=
  let date := jsSplit s "-"
  jsMkDate (jsNum (jsIndex date 0)) (jsNum (jsIndex date 1) - 1) (jsNum (jsIndex date 2))

/-- One model's prediction for one match: outcome probabilities for the keys
`'1'`, `'X'`, `'2'` and expected goals `H`, `A`. -/
structure Prediction where
  p1 : ℚ
  pX : ℚ
  p2 : ℚ
  H : ℚ
  A : ℚ
deriving DecidableEq

/-- The `match-info` part of a dashboard match (`src/unnamed/part_000`):
identifier, division, teams, numeric date value, and the two final-score
fields whose JS `null` is `none`. -/
structure MatchInfo where
  MatchId : String
  Div : String
  Home : String
  Away : String
  Date : ℤ
  FTHG : Option ℤ
  FTAG : Option ℤ
deriving DecidableEq

/-- A dashboard match: its info and its per-model prediction mapping. -/
structure AppMatch where
  matchInfo : MatchInfo
  modelPredictions : List (String × Prediction)
deriving DecidableEq

/-- `FilterManager.currentFilters` (src/unnamed/part_000:362-367): the form's
filter criteria; empty string means an inactive field and `"all"` an
inactive division filter. -/
structure FilterCriteria where
  search : String
  division : String
  dateFrom : String
  dateTo : String
deriving DecidableEq

/-- The evaluation of a predicate-expression search (the `eval(query)` of
`FilterManager.applyAdvancedFilters`, src/unnamed/part_000:422-424) against a
match's per-model prediction mapping. The host `eval` executes arbitrary
stored text, so it enters the model as an abstract function; `none` models an
evaluation that throws. -/
abbrev QueryEval := String → List (String × Prediction) → Option Bool

/-- The division and date clauses of the filter predicate inside
`FilterManager.applyFilters` (src/unnamed/part_000:394-418): reached only
when the search clause did not already decide the match. -/
def divisionDatePass (odds : Bool) (c : FilterCriteria) (m : AppMatch) : Bool :=
  if c.division ≠ "all" ∧ m.matchInfo.Div ≠ c.division then false
  else if c.dateFrom ≠ "" ∧ Utils.parseDate odds m.matchInfo.MatchId < parseFilterDate c.dateFrom then false
  else if c.dateTo ≠ "" ∧ Utils.parseDate odds m.matchInfo.MatchId > parseFilterDate c.dateTo then false
  else true

/-- The predicate closure of `FilterManager.applyFilters`
(src/unnamed/part_000:375-420). With an active search containing the `q:`
marker the closure returns the advanced-filter evaluation directly — `true`
when it throws — and never reaches the division and date clauses. -/
def FilterManager.matchesFilter (odds : Bool) (qeval : QueryEval) (c : FilterCriteria) (m : AppMatch) : Bool :=
  if c.search ≠ "" then
    if strIncludes c.search "q:" then
      match qeval ((jsSplit c.search "q:").getD 1 "") m.modelPredictions with
      | some b => b
      | none => true
    else if ¬ strIncludes (strLower (m.matchInfo.Home ++ " " ++ m.matchInfo.Away ++ " " ++ m.matchInfo.Div)) (strLower c.search) then
      false
    else divisionDatePass odds c m
  else divisionDatePass odds c m

/-- `FilterManager.applyFilters` (src/unnamed/part_000:375-420). -/
def FilterManager.applyFilters (odds : Bool) (qeval : QueryEval) (c : FilterCriteria) (ms : List AppMatch) : List AppMatch :=
  ms.filter (FilterManager.matchesFilter odds qeval c)

/-- The free-text search clause in isolation: inactive when empty, otherwise
a case-insensitive substring test against `Home Away Div`. -/
def searchPass (c : FilterCriteria) (m : AppMatch) : Bool :=
  (c.search == "") ||
    strIncludes (strLower (m.matchInfo.Home ++ " " ++ m.matchInfo.Away ++ " " ++ m.matchInfo.Div)) (strLower c.search)

/-- The division clause in isolation: pass-through on the sentinel `"all"`,
exact division match otherwise. -/
def divisionPass (c : FilterCriteria) (m : AppMatch) : Bool :=
  (c.division == "all") || (m.matchInfo.Div == c.division)

/-- The date-from clause in isolation: inactive when empty, otherwise an
inclusive lower bound on the match's parsed date. -/
def dateFromPass (odds : Bool) (c : FilterCriteria) (m : AppMatch) : Bool :=
  (c.dateFrom == "") || !(decide (Utils.parseDate odds m.matchInfo.MatchId < parseFilterDate c.dateFrom))

/-- The date-to clause in isolation: inactive when empty, otherwise an
inclusive upper bound on the match's parsed date. -/
def dateToPass (odds : Bool) (c : FilterCriteria) (m : AppMatch) : Bool :=
  (c.dateTo == "") || !(decide (Utils.parseDate odds m.matchInfo.MatchId > parseFilterDate c.dateTo))

/-- Insertion step of the stable sort standing in for JS
`Array.prototype.sort` (stable, and determined by a consistent comparator). -/
def insertBy (le : α → α → Bool) (x : α) : List α → List α
  | [] => [x]
  | y :: ys => if le x y then x :: y :: ys else y :: insertBy le x ys

/-- Stable insertion sort standing in for JS `Array.prototype.sort`. -/
def sortBy (le : α → α → Bool) : List α → List α
  | [] => []
  | x :: xs => insertBy le x (sortBy le xs)

/-- `hasResult` as computed inside `DataManager.categorizeMatches`
(src/unnamed/part_000:734-753): both final-score fields are not `null`. -/
def hasResult (m : AppMatch) : Bool :=
  m.matchInfo.FTHG.isSome && m.matchInfo.FTAG.isSome

/-- The three buckets returned by `DataManager.categorizeMatches`. -/
structure Categorized where
  upcoming : List AppMatch
  unresolved : List AppMatch
  resolved : List AppMatch
deriving DecidableEq

/-- `DataManager.categorizeMatches` (src/unnamed/part_000:734-753);
`currentDate` is today's date normalised to midnight. -/
def DataManager.categorizeMatches (currentDate : ℤ) (ms : List AppMatch) : Categorized where
  upcoming := sortBy (fun a b => decide (a.matchInfo.Date ≤ b.matchInfo.Date))
    (ms.filter fun m => decide (m.matchInfo.Date ≥ currentDate) && !(hasResult m))
  unresolved := sortBy (fun a b => decide (a.matchInfo.Date ≤ b.matchInfo.Date))
    (ms.filter fun m => decide (m.matchInfo.Date < currentDate) && !(hasResult m))
  resolved := sortBy (fun a b => decide (b.matchInfo.Date ≤ a.matchInfo.Date))
    (ms.filter fun m => hasResult m)

/-- Reading `o[k]` from a JS object modelled as an ordered association list. -/
def objGet (o : List (String × α)) (k : String) : Option α :=
  (o.find? (fun p => p.1 == k)).map Prod.snd

/-- Writing `o[k] = v` on a JS object modelled as an ordered association
list: an existing key keeps its position, a new key is appended. -/
def objSet (o : List (String × α)) (k : String) (v : α) : List (String × α) :=
  if (o.find? (fun p => p.1 == k)).isSome then
    o.map (fun p => if p.1 == k then (k, v) else p)
  else o ++ [(k, v)]

/-- JS `delete o[k]` on a JS object modelled as an ordered association list. -/
def objDelete (o : List (String × α)) (k : String) : List (String × α) :=
  o.filter (fun p => p.1 != k)

/-- JS `Object.assign(target, source)`: copy the source's entries into the
target in source order, overriding existing keys in place and appending new
ones. -/
def objAssign (target source : List (String × α)) : List (String × α) :=
  source.foldl (fun acc p => objSet acc p.1 p.2) target

/-- `FilterPresetManager.getDefaultPresets` (src/unnamed/part_000:488-544). -/
def FilterPresetManager.getDefaultPresets : List (String × FilterCriteria) :=
  [("A model expects dominant performance - From Goals",
    { search := "q:Object.values(models).some(model=>(model.H > 2 && model.A < 1) || (model.A > 2 && model.H < 1))",
      division := "all", dateFrom := "", dateTo := "" }),
   ("A model expects dominant performance - From Win Prob",
    { search := "q:Object.values(models).some(model=>model[\"1\"] > 0.8 || model[\"2\"] > 0.8)",
      division := "all", dateFrom := "", dateTo := "" }),
   ("A model expects dominant performance - From Win Prob (any %)",
    { search := "q:\n                    const allSameMax = obj => \x7b\n                    const keys = ['1', 'X', '2'];\n                    return Object.values(obj).every(v => keys.reduce((a,b) => v[a] > v[b] ? a : b) === keys.reduce((a,b) => Object.values(obj)[0][a] > Object.values(obj)[0][b] ? a : b));\n                \x7d;\n                allSameMax(models)",
      division := "all", dateFrom := "", dateTo := "" }),
   ("All models aggree on BTTS (Y)",
    { search := "q:Object.values(models).every(model=>model.H > 1.3 && model.A > 1.3)",
      division := "all", dateFrom := "", dateTo := "" }),
   ("Is this Football or Fusball?",
    { search := "q:Object.values(models).every(model=>model.H + model.A > 3.5)",
      division := "all", dateFrom := "", dateTo := "" }),
   ("Goals in total agreement",
    { search := "q:Object.values(models).every(model => Math.round(model.H) == Math.round(models[0].H) && Math.round(model.A) == Math.round(models[0].A))",
      division := "all", dateFrom := "", dateTo := "" }),
   ("High Draw Probability",
    { search := "q:Object.values(models).some(model=>model.X > 0.7)",
      division := "all", dateFrom := "", dateTo := "" }),
   ("All models Win Probability in agreement",
    { search := "q: Object.values(models).every(model => model[\"1\"] > 0.6499) || Object.values(models).every(model => model[\"X\"] > 0.6499) || Object.values(models).every(model => model[\"2\"] > 0.6499)",
      division := "all", dateFrom := "", dateTo := "" })]

/-- The browser's persisted preset entry: `none` when the storage key is
absent (`JSON.parse(null)` is `null`, which `loadFromStorage` replaces with
an empty object); otherwise the parsed name-to-criteria object, whose keys
JSON parsing makes unique. A stored string whose JSON throws — `getAll`'s
`catch` then returns an empty object for that one read — is outside this
model; every write in the code stores well-formed JSON. -/
abbrev PresetStore := Option (List (String × FilterCriteria))

/-- `FilterPresetManager.loadFromStorage` (src/unnamed/part_000:483-486). -/
def FilterPresetManager.loadFromStorage (st : PresetStore) : List (String × FilterCriteria) :=
  st.getD []

/-- `FilterPresetManager.getAll` (src/unnamed/part_000:475-481): defaults
merged with the stored presets, stored entries winning. -/
def FilterPresetManager.getAll (st : PresetStore) : List (String × FilterCriteria) :=
  objAssign FilterPresetManager.getDefaultPresets (FilterPresetManager.loadFromStorage st)

/-- `FilterPresetManager.save` (src/unnamed/part_000:546-550): returns the
storage state after the save. -/
def FilterPresetManager.save (st : PresetStore) (name : String) (filters : FilterCriteria) : PresetStore :=
  some (objSet (FilterPresetManager.getAll st) name filters)

/-- `FilterPresetManager.load` (src/unnamed/part_000:552-555); the
`presets[name] || null` result is `none` exactly when the name is absent. -/
def FilterPresetManager.load (st : PresetStore) (name : String) : Option FilterCriteria :=
  objGet (FilterPresetManager.getAll st) name

/-- `FilterPresetManager.delete` (src/unnamed/part_000:557-561): returns the
storage state after the deletion. -/
def FilterPresetManager.delete (st : PresetStore) (name : String) : PresetStore :=
  some (objDelete (FilterPresetManager.getAll st) name)

/-- `FilterPresetManager.getNames` (src/unnamed/part_000:563-565). -/
def FilterPresetManager.getNames (st : PresetStore) : List String :=
  sortBy (fun a b => decide (a ≤ b)) ((FilterPresetManager.getAll st).map Prod.fst)

/-- A predicate-expression evaluator whose expression evaluates to `true` on
every prediction mapping. -/
def exQevalTrue : QueryEval := fun _ _ => some true

/-- A predicate-expression evaluator whose evaluation always throws. -/
def exQevalThrow : QueryEval := fun _ _ => none

/-- Criteria combining a predicate-expression search with an active division
filter. -/
def exCriteriaQ : FilterCriteria :=
  { search := "q:true", division := "A", dateFrom := "", dateTo := "" }

/-- The cleared criteria (every field inactive). -/
def exCriteriaEmpty : FilterCriteria :=
  { search := "", division := "all", dateFrom := "", dateTo := "" }

/-- A match in division `B`. -/
def exMatchB : AppMatch :=
  { matchInfo := { MatchId := "B1-2024-05-11-Foo-Bar", Div := "B", Home := "Foo",
                   Away := "Bar", Date := 19854, FTHG := none, FTAG := none },
    modelPredictions := [] }

/-- An upcoming match (date in the future, no result). -/
def exUpcoming : AppMatch :=
  { matchInfo := { MatchId := "E0-2024-05-18-Alpha-Beta", Div := "E0", Home := "Alpha",
                   Away := "Beta", Date := 7, FTHG := none, FTAG := none },
    modelPredictions := [] }

/-- A resolved match (result recorded). -/
def exResolved : AppMatch :=
  { matchInfo := { MatchId := "E0-2024-05-04-Gamma-Delta", Div := "E0", Home := "Gamma",
                   Away := "Delta", Date := -7, FTHG := some 2, FTAG := some 1 },
    modelPredictions := [] }

/-- A completed statistics record with suggestion `Over 2.5` and three total
goals. -/
def exStatOverHit : StatMatch :=
  { country := "Austria", result_suggestion := "1", goals_suggestion := "Over 2.5",
    home_score := some 2, away_score := some 1 }

/-- A completed statistics record with suggestion `Over 2.5` and two total
goals. -/
def exStatOverMiss : StatMatch :=
  { country := "Austria", result_suggestion := "2", goals_suggestion := "Over 2.5",
    home_score := some 1, away_score := some 1 }

/-- An uncompleted statistics record. -/
def exStatPending : StatMatch :=
  { country := "Austria", result_suggestion := "1", goals_suggestion := "Over 2.5",
    home_score := none, away_score := none }

/-- A completed statistics record drawn 2-2 with suggestion `Over 2.5`. -/
def exStatDraw : StatMatch :=
  { country := "Belgium", result_suggestion := "X", goals_suggestion := "Over 2.5",
    home_score := some 2, away_score := some 2 }

/-- A completed statistics record won away 0-3 with suggestion `Over 2.5`. -/
def exStatAway : StatMatch :=
  { country := "Brazil", result_suggestion := "2", goals_suggestion := "Over 2.5",
    home_score := some 0, away_score := some 3 }

/-- Four completed records of which three have a correct goals suggestion:
the 3-correct-out-of-4 aggregation example. -/
def exStatFour : List StatMatch :=
  [exStatOverHit, exStatDraw, exStatAway, exStatOverMiss]

/-- A completed record on which both prediction checks are defined and
false: its league's accuracy is zero. -/
def exStatBothWrong : StatMatch :=
  { country := "A", result_suggestion := "1", goals_suggestion := "Over 2.5",
    home_score := some 0, away_score := some 0 }

/-- A completed record on which both prediction checks are defined and true. -/
def exStatBothRight : StatMatch :=
  { country := "B", result_suggestion := "1", goals_suggestion := "Over 2.5",
    home_score := some 3, away_score := some 1 }

/-- A completed record whose non-empty goals suggestion is none of the five
recognised bucket labels but contains one of them as a substring. -/
def exStatOddLabel : StatMatch :=
  { country := "Austria", result_suggestion := "", goals_suggestion := "Always Over 2.5",
    home_score := some 2, away_score := some 2 }

/-- A completed record whose non-empty goals suggestion contains none of the
five recognised bucket labels. -/
def exStatUnknownLabel : StatMatch :=
  { country := "Austria", result_suggestion := "", goals_suggestion := "Over 0.5",
    home_score := some 2, away_score := some 2 }

/-- The name of one of the built-in default presets. -/
def exDefaultName : String := "High Draw Probability"

/-- A preset name that is not among the built-in defaults. -/
def exCustomName : String := "my weekend shortlist"

theorem mem_insertBy {le : α → α → Bool} {x a : α} {l : List α} :
    a ∈ insertBy le x l ↔ a = x ∨ a ∈ l := by
  induction l with
  | nil => simp [insertBy]
  | cons y ys ih =>
    by_cases h : le x y = true
    · simp [insertBy, h]
    · simp [insertBy, h, ih]
      tauto

theorem mem_sortBy {le : α → α → Bool} {a : α} {l : List α} :
    a ∈ sortBy le l ↔ a ∈ l := by
  induction l with
  | nil => simp [sortBy]
  | cons x xs ih => simp [sortBy, mem_insertBy, ih]

theorem checkIsGoalsCorrect_over25_eval (m : StatMatch) (hgs : m.goals_suggestion = "Over 2.5")
    (hc : isMatchCompleted m = true) :
    checkIsGoalsCorrect m = if totalGoals m > 2.5 then some true else some false := by
  have h0 : ("Over 2.5" = "") = False := by decide
  have h1 : strIncludes "Over 2.5" "Over 2.5" = true := by decide
  have h2 : strIncludes "Over 2.5" "Over 1.5" = false := by decide
  have h3 : strIncludes "Over 2.5" "Under 3.5" = false := by decide
  have h4 : strIncludes "Over 2.5" "BTTS Yes" = false := by decide
  have h5 : strIncludes "Over 2.5" "BTTS No" = false := by decide
  by_cases ht : totalGoals m > 2.5 <;>
    simp [checkIsGoalsCorrect, hgs, hc, h0, h1, h2, h3, h4, h5, ht]

theorem goals_exStatOverHit : checkIsGoalsCorrect exStatOverHit = some true := by
  have ht : totalGoals exStatOverHit > 2.5 := by norm_num [totalGoals, exStatOverHit, scoreVal]
  rw [checkIsGoalsCorrect_over25_eval exStatOverHit rfl (by decide), if_pos ht]

theorem goals_exStatDraw : checkIsGoalsCorrect exStatDraw = some true := by
  have ht : totalGoals exStatDraw > 2.5 := by norm_num [totalGoals, exStatDraw, scoreVal]
  rw [checkIsGoalsCorrect_over25_eval exStatDraw rfl (by decide), if_pos ht]

theorem goals_exStatAway : checkIsGoalsCorrect exStatAway = some true := by
  have ht : totalGoals exStatAway > 2.5 := by norm_num [totalGoals, exStatAway, scoreVal]
  rw [checkIsGoalsCorrect_over25_eval exStatAway rfl (by decide), if_pos ht]

theorem goals_exStatOverMiss : checkIsGoalsCorrect exStatOverMiss = some false := by
  have ht : ¬ totalGoals exStatOverMiss > 2.5 := by norm_num [totalGoals, exStatOverMiss, scoreVal]
  rw [checkIsGoalsCorrect_over25_eval exStatOverMiss rfl (by decide), if_neg ht]

theorem goals_exStatBothWrong : checkIsGoalsCorrect exStatBothWrong = some false := by
  have ht : ¬ totalGoals exStatBothWrong > 2.5 := by norm_num [totalGoals, exStatBothWrong, scoreVal]
  rw [checkIsGoalsCorrect_over25_eval exStatBothWrong rfl (by decide), if_neg ht]

theorem goals_exStatBothRight : checkIsGoalsCorrect exStatBothRight = some true := by
  have ht : totalGoals exStatBothRight > 2.5 := by norm_num [totalGoals, exStatBothRight, scoreVal]
  rw [checkIsGoalsCorrect_over25_eval exStatBothRight rfl (by decide), if_pos ht]

theorem forecast_exStatOverHit : checkIsForecastCorrect exStatOverHit = some true := by
  have h0 : ("1" = "") = False := by decide
  have h1 : strIncludes "1" "1" = true := by decide
  simp only [checkIsForecastCorrect, exStatOverHit, isMatchCompleted, scoreVal, h0, h1]
  norm_num

theorem forecast_exStatBothWrong : checkIsForecastCorrect exStatBothWrong = some false := by
  have h0 : ("1" = "") = False := by decide
  have h1 : strIncludes "1" "1" = true := by decide
  have h2 : strIncludes "1" "X" = false := by decide
  have h3 : strIncludes "1" "2" = false := by decide
  simp only [checkIsForecastCorrect, exStatBothWrong, isMatchCompleted, scoreVal, h0, h1, h2, h3]
  norm_num

theorem forecast_exStatBothRight : checkIsForecastCorrect exStatBothRight = some true := by
  have h0 : ("1" = "") = False := by decide
  have h1 : strIncludes "1" "1" = true := by decide
  simp only [checkIsForecastCorrect, exStatBothRight, isMatchCompleted, scoreVal, h0, h1]
  norm_num

theorem forecast_exStatPending : checkIsForecastCorrect exStatPending = none := by
  simp [checkIsForecastCorrect, (by decide : isMatchCompleted exStatPending = false)]

theorem both_exStatOverHit : checkIsBothCorrect exStatOverHit = some true := by
  simp [checkIsBothCorrect, forecast_exStatOverHit, goals_exStatOverHit]

theorem both_exStatBothWrong : checkIsBothCorrect exStatBothWrong = some false := by
  simp [checkIsBothCorrect, forecast_exStatBothWrong, goals_exStatBothWrong]

theorem both_exStatBothRight : checkIsBothCorrect exStatBothRight = some true := by
  simp [checkIsBothCorrect, forecast_exStatBothRight, goals_exStatBothRight]

/-- C6: the combined-correctness check is true exactly when both underlying
checks are defined and true, is false when both are defined and at least one
is false, and is undefined when either underlying check is undefined. -/
theorem C6_both_check_spec (m : StatMatch) :
    (checkIsBothCorrect m = some true ↔
      checkIsForecastCorrect m = some true ∧ checkIsGoalsCorrect m = some true) ∧
    (∀ f g, checkIsForecastCorrect m = some f → checkIsGoalsCorrect m = some g →
      f = false ∨ g = false → checkIsBothCorrect m = some false) ∧
    (checkIsForecastCorrect m = none ∨ checkIsGoalsCorrect m = none →
      checkIsBothCorrect m = none) := by
  unfold checkIsBothCorrect
  rcases hf : checkIsForecastCorrect m with _ | f
  · simp
  · rcases hg : checkIsGoalsCorrect m with _ | g
    · simp
    · cases f <;> cases g <;> simp

/-- Witness for C6 at a match with both checks defined and true, and at an
uncompleted match where the forecast check is undefined. -/
theorem C6_witness :
    checkIsBothCorrect exStatOverHit = some true ∧ checkIsBothCorrect exStatPending = none :=
  ⟨(C6_both_check_spec exStatOverHit).1.mpr ⟨forecast_exStatOverHit, goals_exStatOverHit⟩,
   (C6_both_check_spec exStatPending).2.2 (Or.inl forecast_exStatPending)⟩

/-- C4: the goals-accuracy check is undefined exactly on the matches without
a recorded result or without a goals suggestion, and on a completed match
carrying one of the goal-bucket labels it is true exactly when the bucket's
numeric predicate holds on the actual scores. -/
theorem C4_goals_check_spec (m : StatMatch) :
    (m.goals_suggestion = "" ∨ isMatchCompleted m = false → checkIsGoalsCorrect m = none) ∧
    (isMatchCompleted m = true →
      (m.goals_suggestion = "Over 2.5" → (checkIsGoalsCorrect m = some true ↔ totalGoals m > 2.5)) ∧
      (m.goals_suggestion = "Over 1.5" → (checkIsGoalsCorrect m = some true ↔ totalGoals m > 1.5)) ∧
      (m.goals_suggestion = "Under 3.5" → (checkIsGoalsCorrect m = some true ↔ totalGoals m < 3.5)) ∧
      (m.goals_suggestion = "BTTS Yes" →
        (checkIsGoalsCorrect m = some true ↔ scoreVal m.home_score > 0 ∧ scoreVal m.away_score > 0)) ∧
      (m.goals_suggestion = "BTTS No" →
        (checkIsGoalsCorrect m = some true ↔ scoreVal m.home_score = 0 ∨ scoreVal m.away_score = 0))) := by
  constructor
  · intro h
    unfold checkIsGoalsCorrect
    exact if_pos h
  · intro hc
    refine ⟨?_, ?_, ?_, ?_, ?_⟩
    · intro hgs
      rw [checkIsGoalsCorrect_over25_eval m hgs hc]
      by_cases ht : totalGoals m > 2.5 <;> simp [ht]
    · intro hgs
      have h0 : ("Over 1.5" = "") = False := by decide
      have h1 : strIncludes "Over 1.5" "Over 2.5" = false := by decide
      have h2 : strIncludes "Over 1.5" "Over 1.5" = true := by decide
      have h3 : strIncludes "Over 1.5" "Under 3.5" = false := by decide
      have h4 : strIncludes "Over 1.5" "BTTS Yes" = false := by decide
      have h5 : strIncludes "Over 1.5" "BTTS No" = false := by decide
      by_cases ht : totalGoals m > 1.5 <;>
        simp [checkIsGoalsCorrect, hgs, hc, h0, h1, h2, h3, h4, h5, ht]
    · intro hgs
      have h0 : ("Under 3.5" = "") = False := by decide
      have h1 : strIncludes "Under 3.5" "Over 2.5" = false := by decide
      have h2 : strIncludes "Under 3.5" "Over 1.5" = false := by decide
      have h3 : strIncludes "Under 3.5" "Under 3.5" = true := by decide
      have h4 : strIncludes "Under 3.5" "BTTS Yes" = false := by decide
      have h5 : strIncludes "Under 3.5" "BTTS No" = false := by decide
      by_cases ht : totalGoals m < 3.5 <;>
        simp [checkIsGoalsCorrect, hgs, hc, h0, h1, h2, h3, h4, h5, ht]
    · intro hgs
      have h0 : ("BTTS Yes" = "") = False := by decide
      have h1 : strIncludes "BTTS Yes" "Over 2.5" = false := by decide
      have h2 : strIncludes "BTTS Yes" "Over 1.5" = false := by decide
      have h3 : strIncludes "BTTS Yes" "Under 3.5" = false := by decide
      have h4 : strIncludes "BTTS Yes" "BTTS Yes" = true := by decide
      have h5 : strIncludes "BTTS Yes" "BTTS No" = false := by decide
      by_cases ha : scoreVal m.home_score > 0 <;> by_cases hb : scoreVal m.away_score > 0 <;>
        simp [checkIsGoalsCorrect, hgs, hc, h0, h1, h2, h3, h4, h5, ha, hb]
    · intro hgs
      have h0 : ("BTTS No" = "") = False := by decide
      have h1 : strIncludes "BTTS No" "Over 2.5" = false := by decide
      have h2 : strIncludes "BTTS No" "Over 1.5" = false := by decide
      have h3 : strIncludes "BTTS No" "Under 3.5" = false := by decide
      have h4 : strIncludes "BTTS No" "BTTS Yes" = false := by decide
      have h5 : strIncludes "BTTS No" "BTTS No" = true := by decide
      by_cases ha : scoreVal m.home_score = 0 <;> by_cases hb : scoreVal m.away_score = 0 <;>
        simp [checkIsGoalsCorrect, hgs, hc, h0, h1, h2, h3, h4, h5, ha, hb]

/-- Witness for C4: the `Over 2.5` biconditional at a completed match, and
undefinedness at an uncompleted one. -/
theorem C4_witness :
    (checkIsGoalsCorrect exStatOverHit = some true ↔ totalGoals exStatOverHit > 2.5) ∧
    checkIsGoalsCorrect exStatPending = none :=
  ⟨((C4_goals_check_spec exStatOverHit).2 (by decide)).1 rfl,
   (C4_goals_check_spec exStatPending).1 (Or.inr (by decide))⟩

/-- C10 fails as stated: this completed match's non-empty goals suggestion is
none of the five recognised bucket labels, yet the check returns true, not
false — the code tests substring containment, not label equality. -/
theorem C10_counterexample :
    exStatOddLabel.goals_suggestion ∉ ["Over 2.5", "Over 1.5", "Under 3.5", "BTTS Yes", "BTTS No"] ∧
    exStatOddLabel.goals_suggestion ≠ "" ∧
    isMatchCompleted exStatOddLabel = true ∧
    checkIsGoalsCorrect exStatOddLabel = some true := by
  refine ⟨by decide, by decide, by decide, ?_⟩
  have h0 : ("Always Over 2.5" = "") = False := by decide
  have h1 : strIncludes "Always Over 2.5" "Over 2.5" = true := by decide
  simp only [checkIsGoalsCorrect, exStatOddLabel, isMatchCompleted, totalGoals, scoreVal, h0, h1]
  norm_num

/-- C10 (amended): on a completed match, a non-empty goals suggestion that
contains none of the five recognised bucket labels as a substring makes the
goals-accuracy check false, never undefined. -/
theorem C10_unrecognized_false (m : StatMatch)
    (hc : isMatchCompleted m = true) (hne : m.goals_suggestion ≠ "")
    (h1 : strIncludes m.goals_suggestion "Over 2.5" = false)
    (h2 : strIncludes m.goals_suggestion "Over 1.5" = false)
    (h3 : strIncludes m.goals_suggestion "Under 3.5" = false)
    (h4 : strIncludes m.goals_suggestion "BTTS Yes" = false)
    (h5 : strIncludes m.goals_suggestion "BTTS No" = false) :
    checkIsGoalsCorrect m = some false := by
  simp [checkIsGoalsCorrect, hc, hne, h1, h2, h3, h4, h5]

/-- Witness for C10 at a completed match whose suggestion `Over 0.5` contains
no recognised label. -/
theorem C10_witness : checkIsGoalsCorrect exStatUnknownLabel = some false :=
  C10_unrecognized_false exStatUnknownLabel (by decide) (by decide)
    (by decide) (by decide) (by decide) (by decide) (by decide)

/-- C5: the aggregated percentage is the half-up rounding of
`100 × correct / count` over the defined evaluations, is `0` when no
evaluation is defined, and is `75` for 3 correct out of 4. -/
theorem C5_calcAccuracy_spec (matchList : List StatMatch) (checkFn : StatMatch → Option Bool) :
    (definedCount matchList checkFn = 0 → calcAccuracy matchList checkFn = 0) ∧
    (definedCount matchList checkFn ≠ 0 →
      calcAccuracy matchList checkFn =
        jsRound (100 * (correctCount matchList checkFn : ℚ) / (definedCount matchList checkFn : ℚ))) ∧
    ChartsManager.calculateAccuracy 3 4 = 75 ∧
    calcAccuracy exStatFour checkIsGoalsCorrect = 75 := by
  refine ⟨?_, ?_, ?_, ?_⟩
  · intro h
    simp only [calcAccuracy]
    rw [if_neg]
    simpa [definedCount] using h
  · intro h
    simp only [calcAccuracy]
    rw [if_pos]
    · congr 1
      unfold correctCount definedCount
      ring
    · simpa [definedCount] using h
  · unfold ChartsManager.calculateAccuracy jsRound
    norm_num
  · have hmap : exStatFour.map checkIsGoalsCorrect = [some true, some true, some true, some false] := by
      simp [exStatFour, goals_exStatOverHit, goals_exStatDraw, goals_exStatAway, goals_exStatOverMiss]
    have hval : ([some true, some true, some true, some false] : List (Option Bool)).filter
        (fun v => v != none) = [some true, some true, some true, some false] := by decide
    have hcor : (([some true, some true, some true, some false] : List (Option Bool)).filter
        (fun v => v == some true)).length = 3 := by decide
    simp only [calcAccuracy, hmap, hval, hcor]
    norm_num [jsRound]

/-- Witness for C5: the rounded-ratio equation applied at a four-element list
with a nowhere-undefined evaluation. -/
theorem C5_witness :
    definedCount exStatFour (fun _ => some true) ≠ 0 ∧
    calcAccuracy exStatFour (fun _ => some true) =
      jsRound (100 * (correctCount exStatFour (fun _ => some true) : ℚ) /
        (definedCount exStatFour (fun _ => some true) : ℚ)) :=
  ⟨by decide, (C5_calcAccuracy_spec exStatFour (fun _ => some true)).2.1 (by decide)⟩

theorem search_with_marker_ne_empty {s : String} (h : strIncludes s "q:" = true) : s ≠ "" := by
  intro he
  subst he
  exact absurd h (by decide)

/-- C2: with a predicate-expression search, an evaluation error on one match
keeps that match (fail-open) and the filter still processes the matches
around it normally. -/
theorem C2_fail_open (odds : Bool) (qeval : QueryEval) (c : FilterCriteria) (m : AppMatch)
    (ms₁ ms₂ : List AppMatch)
    (hq : strIncludes c.search "q:" = true)
    (he : qeval ((jsSplit c.search "q:").getD 1 "") m.modelPredictions = none) :
    FilterManager.matchesFilter odds qeval c m = true ∧
    FilterManager.applyFilters odds qeval c (ms₁ ++ m :: ms₂) =
      FilterManager.applyFilters odds qeval c ms₁ ++ m :: FilterManager.applyFilters odds qeval c ms₂ := by
  have hne : c.search ≠ "" := search_with_marker_ne_empty hq
  have hm : FilterManager.matchesFilter odds qeval c m = true := by
    simp only [FilterManager.matchesFilter, hq, he, if_true]
    rw [if_pos hne]
  refine ⟨hm, ?_⟩
  unfold FilterManager.applyFilters
  rw [List.filter_append, List.filter_cons_of_pos]
  exact hm

theorem divisionDatePass_eq (odds : Bool) (c : FilterCriteria) (m : AppMatch) :
    divisionDatePass odds c m =
      (divisionPass c m && dateFromPass odds c m && dateToPass odds c m) := by
  unfold divisionDatePass divisionPass dateFromPass dateToPass
  by_cases h1 : c.division = "all" <;>
    by_cases h2 : m.matchInfo.Div = c.division <;>
    by_cases h3 : c.dateFrom = "" <;>
    by_cases h4 : Utils.parseDate odds m.matchInfo.MatchId < parseFilterDate c.dateFrom <;>
    by_cases h5 : c.dateTo = "" <;>
    by_cases h6 : Utils.parseDate odds m.matchInfo.MatchId > parseFilterDate c.dateTo <;>
    simp [h1, h2, h3, h4, h5, h6]

theorem matchesFilter_no_marker (odds : Bool) (qeval : QueryEval) (c : FilterCriteria)
    (m : AppMatch) (hq : strIncludes c.search "q:" = false) :
    FilterManager.matchesFilter odds qeval c m =
      (searchPass c m && divisionPass c m && dateFromPass odds c m && dateToPass odds c m) := by
  unfold FilterManager.matchesFilter
  by_cases hs : c.search = ""
  · rw [if_neg (by simp [hs])]
    have hp : searchPass c m = true := by simp [searchPass, hs]
    rw [divisionDatePass_eq, hp]
    simp
  · rw [if_pos hs, if_neg (by simp [hq])]
    by_cases ht : strIncludes (strLower (m.matchInfo.Home ++ " " ++ m.matchInfo.Away ++ " " ++ m.matchInfo.Div)) (strLower c.search) = true
    · rw [if_neg (by simp [ht])]
      have hp : searchPass c m = true := by simp [searchPass, ht]
      rw [divisionDatePass_eq, hp]
      simp
    · rw [if_pos (by simp [ht])]
      have hp : searchPass c m = false := by
        simp [searchPass, hs]
        simpa using ht
      rw [hp]
      simp

/-- C1 (amended): the filter always returns a stable subsequence of its
input, and whenever the search string does not contain the predicate marker
a match is kept exactly when it satisfies the conjunction of the search,
division, date-from and date-to criteria. When the marker is present the
closure's early return lets the predicate expression decide alone and the
division and date criteria are ignored (`C1_counterexample`). -/
theorem C1_applyFilters_stable_conjunction (odds : Bool) (qeval : QueryEval)
    (c : FilterCriteria) (ms : List AppMatch) :
    (FilterManager.applyFilters odds qeval c ms).Sublist ms ∧
    (strIncludes c.search "q:" = false →
      ∀ m, m ∈ FilterManager.applyFilters odds qeval c ms ↔
        (m ∈ ms ∧ searchPass c m = true ∧ divisionPass c m = true ∧
         dateFromPass odds c m = true ∧ dateToPass odds c m = true)) := by
  constructor
  · exact List.filter_sublist _
  · intro hq m
    rw [FilterManager.applyFilters, List.mem_filter, matchesFilter_no_marker odds qeval c m hq]
    simp [and_assoc]

/-- C1 fails as stated: with the predicate marker present and division
filter `A` active, the division-B match is kept because the predicate
expression alone decides — the division criterion is not part of the
conjunction. -/
theorem C1_counterexample :
    FilterManager.applyFilters false exQevalTrue exCriteriaQ [exMatchB] = [exMatchB] ∧
    divisionPass exCriteriaQ exMatchB = false := by
  constructor <;> decide

/-- Witness for C1: the conjunction characterisation applied at cleared
criteria and a singleton input. -/
theorem C1_witness :
    exMatchB ∈ FilterManager.applyFilters false exQevalTrue exCriteriaEmpty [exMatchB] ↔
      (exMatchB ∈ [exMatchB] ∧ searchPass exCriteriaEmpty exMatchB = true ∧
       divisionPass exCriteriaEmpty exMatchB = true ∧
       dateFromPass false exCriteriaEmpty exMatchB = true ∧
       dateToPass false exCriteriaEmpty exMatchB = true) :=
  (C1_applyFilters_stable_conjunction false exQevalTrue exCriteriaEmpty [exMatchB]).2 (by decide) exMatchB

/-- Witness for C2: a throwing evaluator keeps the match and filtering
recombines around it. -/
theorem C2_witness :
    FilterManager.matchesFilter false exQevalThrow exCriteriaQ exMatchB = true ∧
    FilterManager.applyFilters false exQevalThrow exCriteriaQ ([] ++ exMatchB :: []) =
      FilterManager.applyFilters false exQevalThrow exCriteriaQ [] ++
        exMatchB :: FilterManager.applyFilters false exQevalThrow exCriteriaQ [] :=
  C2_fail_open false exQevalThrow exCriteriaQ exMatchB [] [] (by decide) rfl

/-- C3: relative to the input collection, a match is resolved exactly when
both final-score fields are present, upcoming exactly when its date is on or
after today with no result, unresolved exactly when its date is before today
with no result — and it lies in exactly one of the three buckets. -/
theorem C3_categorize_partition (currentDate : ℤ) (ms : List AppMatch) (m : AppMatch)
    (hm : m ∈ ms) :
    (m ∈ (DataManager.categorizeMatches currentDate ms).resolved ↔
      (m.matchInfo.FTHG ≠ none ∧ m.matchInfo.FTAG ≠ none)) ∧
    (m ∈ (DataManager.categorizeMatches currentDate ms).upcoming ↔
      (m.matchInfo.Date ≥ currentDate ∧ ¬(m.matchInfo.FTHG ≠ none ∧ m.matchInfo.FTAG ≠ none))) ∧
    (m ∈ (DataManager.categorizeMatches currentDate ms).unresolved ↔
      (m.matchInfo.Date < currentDate ∧ ¬(m.matchInfo.FTHG ≠ none ∧ m.matchInfo.FTAG ≠ none))) ∧
    ((m ∈ (DataManager.categorizeMatches currentDate ms).upcoming ∧
        m ∉ (DataManager.categorizeMatches currentDate ms).unresolved ∧
        m ∉ (DataManager.categorizeMatches currentDate ms).resolved) ∨
     (m ∉ (DataManager.categorizeMatches currentDate ms).upcoming ∧
        m ∈ (DataManager.categorizeMatches currentDate ms).unresolved ∧
        m ∉ (DataManager.categorizeMatches currentDate ms).resolved) ∨
     (m ∉ (DataManager.categorizeMatches currentDate ms).upcoming ∧
        m ∉ (DataManager.categorizeMatches currentDate ms).unresolved ∧
        m ∈ (DataManager.categorizeMatches currentDate ms).resolved)) := by
  have hr : m ∈ (DataManager.categorizeMatches currentDate ms).resolved ↔
      (m.matchInfo.FTHG ≠ none ∧ m.matchInfo.FTAG ≠ none) := by
    simp [DataManager.categorizeMatches, mem_sortBy, List.mem_filter, hm, hasResult,
      Option.isSome_iff_ne_none]
  have hu : m ∈ (DataManager.categorizeMatches currentDate ms).upcoming ↔
      (m.matchInfo.Date ≥ currentDate ∧ ¬(m.matchInfo.FTHG ≠ none ∧ m.matchInfo.FTAG ≠ none)) := by
    simp [DataManager.categorizeMatches, mem_sortBy, List.mem_filter, hm, hasResult,
      Option.isSome_iff_ne_none]
    tauto
  have hn : m ∈ (DataManager.categorizeMatches currentDate ms).unresolved ↔
      (m.matchInfo.Date < currentDate ∧ ¬(m.matchInfo.FTHG ≠ none ∧ m.matchInfo.FTAG ≠ none)) := by
    simp [DataManager.categorizeMatches, mem_sortBy, List.mem_filter, hm, hasResult,
      Option.isSome_iff_ne_none]
    tauto
  refine ⟨hr, hu, hn, ?_⟩
  by_cases hz : m.matchInfo.FTHG ≠ none ∧ m.matchInfo.FTAG ≠ none
  · right; right
    simp [hr, hu, hn, hz]
  · rcases lt_or_ge m.matchInfo.Date currentDate with hd | hd
    · right; left
      have hd2 : ¬ m.matchInfo.Date ≥ currentDate := not_le.mpr hd
      simp [hr, hu, hn, hz, hd, hd2]
    · left
      have hd2 : ¬ m.matchInfo.Date < currentDate := not_lt.mpr hd
      simp [hr, hu, hn, hz, hd, hd2]

/-- Witness for C3 at a concrete two-match collection. -/
theorem C3_witness :
    exUpcoming ∈ (DataManager.categorizeMatches 0 [exUpcoming, exResolved]).upcoming ↔
      (exUpcoming.matchInfo.Date ≥ 0 ∧
        ¬(exUpcoming.matchInfo.FTHG ≠ none ∧ exUpcoming.matchInfo.FTAG ≠ none)) :=
  (C3_categorize_partition 0 [exUpcoming, exResolved] exUpcoming (by decide)).2.1

theorem find?_none_of_not_isSome {β : Type _} {p : β → Bool} {l : List β}
    (h : ¬ (l.find? p).isSome = true) : l.find? p = none := by
  cases hf : l.find? p with
  | none => rfl
  | some q =>
    rw [hf] at h
    simp at h

theorem find?_map_set (o : List (String × α)) (k : String) (v : α)
    (h : (o.find? (fun p => p.1 == k)).isSome = true) :
    ((o.map (fun p => if p.1 == k then (k, v) else p)).find? (fun p => p.1 == k)) = some (k, v) := by
  induction o with
  | nil => simp at h
  | cons p ps ih =>
    rw [List.map_cons]
    by_cases hp : p.1 = k
    · have hhead : (if (p.1 == k) = true then (k, v) else p) = (k, v) := by simp [hp]
      rw [hhead, List.find?_cons_of_pos _ (by simp)]
    · have hhead : (if (p.1 == k) = true then (k, v) else p) = p := by simp [hp]
      have h' : (ps.find? (fun p => p.1 == k)).isSome = true := by
        rwa [List.find?_cons_of_neg _ (by simp [hp])] at h
      rw [hhead, List.find?_cons_of_neg _ (by simp [hp]), ih h']

theorem find?_map_set_ne (o : List (String × α)) (k k' : String) (v : α) (hk : k' ≠ k) :
    ((o.map (fun p => if p.1 == k then (k, v) else p)).find? (fun p => p.1 == k')) =
      o.find? (fun p => p.1 == k') := by
  induction o with
  | nil => rfl
  | cons p ps ih =>
    rw [List.map_cons]
    by_cases hp : p.1 = k
    · have hhead : (if (p.1 == k) = true then (k, v) else p) = (k, v) := by simp [hp]
      rw [hhead, List.find?_cons_of_neg _ (by simp [Ne.symm hk]),
        List.find?_cons_of_neg _ (by simp [hp, Ne.symm hk]), ih]
    · have hhead : (if (p.1 == k) = true then (k, v) else p) = p := by simp [hp]
      rw [hhead]
      by_cases hp' : p.1 = k'
      · rw [List.find?_cons_of_pos _ (by simp [hp']), List.find?_cons_of_pos _ (by simp [hp'])]
      · rw [List.find?_cons_of_neg _ (by simp [hp']), List.find?_cons_of_neg _ (by simp [hp']), ih]

theorem objGet_objSet_self (o : List (String × α)) (k : String) (v : α) :
    objGet (objSet o k v) k = some v := by
  unfold objSet
  by_cases h : (o.find? (fun p => p.1 == k)).isSome = true
  · rw [if_pos h]
    unfold objGet
    rw [find?_map_set o k v h]
    rfl
  · rw [if_neg h]
    unfold objGet
    rw [List.find?_append, find?_none_of_not_isSome h]
    simp

theorem objGet_objSet_ne (o : List (String × α)) (k k' : String) (v : α) (hk : k' ≠ k) :
    objGet (objSet o k v) k' = objGet o k' := by
  unfold objSet
  by_cases h : (o.find? (fun p => p.1 == k)).isSome = true
  · rw [if_pos h]
    unfold objGet
    rw [find?_map_set_ne o k k' v hk]
  · rw [if_neg h]
    unfold objGet
    rw [List.find?_append]
    have hsing : ([(k, v)].find? (fun p => p.1 == k')) = none := by
      simp [Ne.symm hk]
    rw [hsing]
    cases o.find? (fun p => p.1 == k') <;> rfl

theorem keys_objSet (o : List (String × α)) (k : String) (v : α) :
    (objSet o k v).map Prod.fst =
      if (o.find? (fun p => p.1 == k)).isSome then o.map Prod.fst
      else o.map Prod.fst ++ [k] := by
  unfold objSet
  by_cases h : (o.find? (fun p => p.1 == k)).isSome = true
  · rw [if_pos h, if_pos h, List.map_map]
    apply List.map_congr_left
    intro p _
    by_cases hp : p.1 = k <;> simp [hp]
  · rw [if_neg h, if_neg h]
    simp

theorem nodupKeys_objSet (o : List (String × α)) (k : String) (v : α)
    (h : (o.map Prod.fst).Nodup) : ((objSet o k v).map Prod.fst).Nodup := by
  rw [keys_objSet]
  by_cases hf : (o.find? (fun p => p.1 == k)).isSome = true
  · rwa [if_pos hf]
  · rw [if_neg hf]
    have hk : k ∉ o.map Prod.fst := by
      intro hmem
      rcases List.mem_map.mp hmem with ⟨p, hp, hpk⟩
      have h1 := List.find?_eq_none.mp (find?_none_of_not_isSome hf) p hp
      rw [hpk] at h1
      simp at h1
    simp [List.nodup_append, h, hk]

theorem nodupKeys_objAssign (b a : List (String × α)) (h : (a.map Prod.fst).Nodup) :
    ((objAssign a b).map Prod.fst).Nodup := by
  induction b generalizing a with
  | nil => simpa [objAssign] using h
  | cons p ps ih =>
    have hstep : objAssign a (p :: ps) = objAssign (objSet a p.1 p.2) ps := by
      simp [objAssign]
    rw [hstep]
    exact ih _ (nodupKeys_objSet a p.1 p.2 h)

theorem objGet_objAssign_of_not_mem (b a : List (String × α)) (k : String)
    (h : k ∉ b.map Prod.fst) : objGet (objAssign a b) k = objGet a k := by
  induction b generalizing a with
  | nil => simp [objAssign]
  | cons p ps ih =>
    have hstep : objAssign a (p :: ps) = objAssign (objSet a p.1 p.2) ps := by
      simp [objAssign]
    have hk1 : k ≠ p.1 := by
      intro he
      exact h (by simp [he])
    have hk2 : k ∉ ps.map Prod.fst := by
      intro he
      exact h (by simp [he])
    rw [hstep, ih _ hk2, objGet_objSet_ne _ _ _ _ hk1]

theorem objGet_objAssign_of_get (b a : List (String × α)) (k : String) (v : α)
    (hnd : (b.map Prod.fst).Nodup) (hb : objGet b k = some v) :
    objGet (objAssign a b) k = some v := by
  induction b generalizing a with
  | nil => simp [objGet] at hb
  | cons p ps ih =>
    have hstep : objAssign a (p :: ps) = objAssign (objSet a p.1 p.2) ps := by
      simp [objAssign]
    rw [hstep]
    have hnd' : p.1 ∉ List.map Prod.fst ps ∧ (List.map Prod.fst ps).Nodup := by
      rw [List.map_cons] at hnd
      exact List.nodup_cons.mp hnd
    by_cases hp : p.1 = k
    · have hv : p.2 = v := by
        unfold objGet at hb
        rw [List.find?_cons_of_pos _ (by simp [hp])] at hb
        exact Option.some.inj hb
      have hk : k ∉ List.map Prod.fst ps := by
        rw [← hp]
        exact hnd'.1
      rw [objGet_objAssign_of_not_mem _ _ _ hk, ← hv, ← hp]
      exact objGet_objSet_self a p.1 p.2
    · have hb' : objGet ps k = some v := by
        unfold objGet at hb ⊢
        rwa [List.find?_cons_of_neg _ (by simp [hp])] at hb
      exact ih _ hnd'.2 hb'

theorem objGet_eq_none_iff (o : List (String × α)) (k : String) :
    objGet o k = none ↔ k ∉ o.map Prod.fst := by
  constructor
  · intro h hmem
    rcases List.mem_map.mp hmem with ⟨p, hp, hpk⟩
    have h0 : o.find? (fun p => p.1 == k) = none := by
      unfold objGet at h
      cases hf : o.find? (fun p => p.1 == k) with
      | none => rfl
      | some q =>
        rw [hf] at h
        simp at h
    have h1 := List.find?_eq_none.mp h0 p hp
    rw [hpk] at h1
    simp at h1
  · intro h
    have h0 : o.find? (fun p => p.1 == k) = none := by
      rw [List.find?_eq_none]
      intro p hp
      simp only [beq_iff_eq]
      intro he
      exact h (List.mem_map.mpr ⟨p, hp, he⟩)
    unfold objGet
    rw [h0]
    rfl

theorem not_mem_keys_objDelete (o : List (String × α)) (k : String) :
    k ∉ (objDelete o k).map Prod.fst := by
  intro h
  rcases List.mem_map.mp h with ⟨p, hp, hpk⟩
  have h1 := (List.mem_filter.mp hp).2
  rw [hpk] at h1
  simp at h1

/-- C8: saving a preset under a name and then loading that name recovers
exactly the saved criteria, for every prior storage state. -/
theorem C8_preset_round_trip (st : PresetStore) (name : String) (filters : FilterCriteria) :
    FilterPresetManager.load (FilterPresetManager.save st name filters) name = some filters := by
  have hd : (FilterPresetManager.getDefaultPresets.map Prod.fst).Nodup := by decide
  have h1 : ((FilterPresetManager.getAll st).map Prod.fst).Nodup :=
    nodupKeys_objAssign _ _ hd
  have h2 : ((objSet (FilterPresetManager.getAll st) name filters).map Prod.fst).Nodup :=
    nodupKeys_objSet _ _ _ h1
  simp only [FilterPresetManager.load, FilterPresetManager.save, FilterPresetManager.getAll,
    FilterPresetManager.loadFromStorage, Option.getD_some]
  exact objGet_objAssign_of_get _ _ _ _ h2 (objGet_objSet_self _ _ _)

/-- C9 (amended): deleting a preset whose name is not one of the built-in
default names removes it for good: a subsequent load of that name returns
nothing and the name no longer appears in the presets list. For a default
name the deletion does not stick, because `getAll` re-merges the defaults
over the stored object (`C9_counterexample`). -/
theorem C9_delete_non_default (st : PresetStore) (name : String)
    (h : name ∉ FilterPresetManager.getDefaultPresets.map Prod.fst) :
    FilterPresetManager.load (FilterPresetManager.delete st name) name = none ∧
    name ∉ FilterPresetManager.getNames (FilterPresetManager.delete st name) := by
  have hnone : objGet (objAssign FilterPresetManager.getDefaultPresets
      (objDelete (FilterPresetManager.getAll st) name)) name = none := by
    rw [objGet_objAssign_of_not_mem _ _ _ (not_mem_keys_objDelete _ _)]
    exact (objGet_eq_none_iff _ _).mpr h
  constructor
  · simp only [FilterPresetManager.load, FilterPresetManager.delete, FilterPresetManager.getAll,
      FilterPresetManager.loadFromStorage, Option.getD_some]
    exact hnone
  · intro hmem
    rw [FilterPresetManager.getNames, mem_sortBy] at hmem
    simp only [FilterPresetManager.delete, FilterPresetManager.getAll,
      FilterPresetManager.loadFromStorage, Option.getD_some] at hmem
    exact absurd hmem ((objGet_eq_none_iff _ _).mp hnone)

/-- Witness for C9 at a non-default preset name over empty storage. -/
theorem C9_witness :
    FilterPresetManager.load (FilterPresetManager.delete none exCustomName) exCustomName = none ∧
    exCustomName ∉ FilterPresetManager.getNames (FilterPresetManager.delete none exCustomName) :=
  C9_delete_non_default none exCustomName (by decide)

/-- C9 fails as stated on the built-in preset names: after explicitly
deleting this default preset, loading it still returns the default criteria
and the name still appears in the presets list, because `getAll` re-merges
the defaults over the stored object. -/
theorem C9_counterexample :
    FilterPresetManager.load (FilterPresetManager.delete none exDefaultName) exDefaultName =
      some { search := "q:Object.values(models).some(model=>model.X > 0.7)",
             division := "all", dateFrom := "", dateTo := "" } ∧
    exDefaultName ∈ FilterPresetManager.getNames (FilterPresetManager.delete none exDefaultName) := by
  refine ⟨by decide, ?_⟩
  rw [FilterPresetManager.getNames, mem_sortBy]
  decide

theorem bestFold_cons (b g : String × ℚ) (rest : List (String × ℚ)) :
    bestFold b (g :: rest) = bestFold (if b.2 < g.2 then g else b) rest := by
  simp [bestFold]

theorem bestFold_snd_le (l : List (String × ℚ)) (b : String × ℚ) :
    b.2 ≤ (bestFold b l).2 := by
  induction l generalizing b with
  | nil => exact le_refl _
  | cons g rest ih =>
    rw [bestFold_cons]
    by_cases h : b.2 < g.2
    · rw [if_pos h]
      exact le_of_lt (lt_of_lt_of_le h (ih g))
    · rw [if_neg h]
      exact ih b

theorem bestFold_eq_or_lt (l : List (String × ℚ)) (b : String × ℚ) :
    bestFold b l = b ∨ b.2 < (bestFold b l).2 := by
  induction l generalizing b with
  | nil => exact Or.inl rfl
  | cons g rest ih =>
    rw [bestFold_cons]
    by_cases h : b.2 < g.2
    · rw [if_pos h]
      exact Or.inr (lt_of_lt_of_le h (bestFold_snd_le rest g))
    · rw [if_neg h]
      exact ih b

theorem bestFold_max (l : List (String × ℚ)) (b : String × ℚ) :
    ∀ q ∈ l, q.2 ≤ (bestFold b l).2 := by
  induction l generalizing b with
  | nil =>
    intro q hq
    simp at hq
  | cons g rest ih =>
    intro q hq
    rw [bestFold_cons]
    rcases List.mem_cons.mp hq with he | hq'
    · by_cases h : b.2 < g.2
      · rw [if_pos h, he]
        exact bestFold_snd_le rest g
      · rw [if_neg h, he]
        exact le_trans (le_of_not_lt h) (bestFold_snd_le rest b)
    · exact ih _ q hq'

theorem bestFold_find? (l : List (String × ℚ)) (b : String × ℚ) :
    (b :: l).find? (fun q => (bestFold b l).2 ≤ q.2) = some (bestFold b l) := by
  induction l generalizing b with
  | nil =>
    show List.find? (fun q => decide ((bestFold b []).2 ≤ q.2)) [b] = some (bestFold b [])
    have hb : bestFold b [] = b := rfl
    rw [hb]
    exact List.find?_cons_of_pos _ (by simp)
  | cons g rest ih =>
    rw [bestFold_cons]
    by_cases h : b.2 < g.2
    · rw [if_pos h]
      have hr : g.2 ≤ (bestFold g rest).2 := bestFold_snd_le rest g
      have hb : ¬ ((bestFold g rest).2 ≤ b.2) := not_le.mpr (lt_of_lt_of_le h hr)
      rw [List.find?_cons_of_neg _ (by simpa using hb)]
      exact ih g
    · rw [if_neg h]
      rcases bestFold_eq_or_lt rest b with he | hlt
      · rw [he]
        refine List.find?_cons_of_pos _ (by simp)
      · have hb : ¬ ((bestFold b rest).2 ≤ b.2) := not_le.mpr hlt
        have hg : ¬ ((bestFold b rest).2 ≤ g.2) :=
          not_le.mpr (lt_of_le_of_lt (le_of_not_lt h) hlt)
        rw [List.find?_cons_of_neg _ (by simpa using hb),
          List.find?_cons_of_neg _ (by simpa using hg)]
        have ihb := ih b
        rw [List.find?_cons_of_neg _ (by simpa using hb)] at ihb
        exact ihb

theorem getBestLeague_eq_bestFold (matchList : List StatMatch) :
    getBestLeague matchList = (bestFold ("", 0) (statsAcc matchList)).1 := by
  unfold getBestLeague statsAcc bestFold
  rw [List.foldl_map]

/-- C7 (amended): whenever some stats group has positive accuracy, the
best-league reduce returns the first group attaining the maximal accuracy
(strict improvement keeps the earlier of tied groups). When every group's
accuracy is zero it keeps its `{league: '', acc: 0}` seed instead and
returns a name that belongs to no group (`C7_counterexample`). -/
theorem C7_best_league_first_max (matchList : List StatMatch)
    (h : ∃ p ∈ statsAcc matchList, 0 < p.2) :
    ∃ p ∈ statsAcc matchList,
      getBestLeague matchList = p.1 ∧
      (∀ q ∈ statsAcc matchList, q.2 ≤ p.2) ∧
      (statsAcc matchList).find? (fun q => p.2 ≤ q.2) = some p := by
  rcases h with ⟨p0, hp0, hpos⟩
  have hmax : ∀ q ∈ statsAcc matchList, q.2 ≤ (bestFold ("", 0) (statsAcc matchList)).2 :=
    bestFold_max _ _
  have hrpos : 0 < (bestFold ("", 0) (statsAcc matchList)).2 :=
    lt_of_lt_of_le hpos (hmax p0 hp0)
  have hfind := bestFold_find? (statsAcc matchList) ("", 0)
  rw [List.find?_cons_of_neg _ (by simpa using not_le.mpr hrpos)] at hfind
  exact ⟨bestFold ("", 0) (statsAcc matchList), List.mem_of_find?_eq_some hfind,
    getBestLeague_eq_bestFold matchList, hmax, hfind⟩

theorem statsAcc_exStatBothRight : statsAcc [exStatBothRight] = [("B", 1)] := by
  have h : checkIsBothCorrect exStatBothRight = some true := both_exStatBothRight
  simp only [statsAcc, buildStats, List.foldl_cons, List.foldl_nil, updateStats, h]
  norm_num [accOf, exStatBothRight]

/-- Witness for C7 at a one-match collection whose single group has
accuracy 1. -/
theorem C7_witness :
    ∃ p ∈ statsAcc [exStatBothRight],
      getBestLeague [exStatBothRight] = p.1 ∧
      (∀ q ∈ statsAcc [exStatBothRight], q.2 ≤ p.2) ∧
      (statsAcc [exStatBothRight]).find? (fun q => p.2 ≤ q.2) = some p :=
  C7_best_league_first_max [exStatBothRight]
    ⟨("B", 1), by rw [statsAcc_exStatBothRight]; exact List.mem_singleton.mpr rfl, by norm_num⟩

/-- C7 fails as stated: the one-group collection has a defined evaluation,
its group `A` trivially attains the maximal accuracy 0, yet the selection
returns `''`, which is not a group. -/
theorem C7_counterexample :
    (buildStats [exStatBothWrong]).map Prod.fst = ["A"] ∧
    getBestLeague [exStatBothWrong] = "" ∧
    "" ∉ (buildStats [exStatBothWrong]).map Prod.fst := by
  have h : checkIsBothCorrect exStatBothWrong = some false := both_exStatBothWrong
  have hb : buildStats [exStatBothWrong] = [("A", 0, 1)] := by
    simp only [buildStats, List.foldl_cons, List.foldl_nil, updateStats, h]
    norm_num [exStatBothWrong]
  refine ⟨by rw [hb]; rfl, ?_, by rw [hb]; decide⟩
  unfold getBestLeague
  rw [hb]
  norm_num [accOf]
